import Mathlib

/-!
Shallow embedding of the vulnscan-asm scan orchestration engine
(`scanner/engine.py`, with the data model of `scanner/models.py`, the
module registry of `scanner/modules/__init__.py` and the blocked-CIDR
configuration of `scanner/config.py`).

Modelling conventions:
* Python floats are embedded as exact rationals (`ℚ`); `round` is
  embedded as round-half-to-even (`pyRound`), Python 3 semantics.
* Python dicts whose insertion order is observable (`severity_counts`,
  `module_results`) are embedded as association lists updated by
  `dictIncr` / `dictSet`, which mirror `d[k] = ...` on a dict with
  unique keys (update in place, or append a new key at the end).
* Network effects are oracles: DNS resolution is a parameter
  `resolve : String → Option (List SockAddr)` (`none` models a
  `socket.gaierror`), and the outcome of invoking a module at loop
  position `i` is a parameter `behavior : Nat → ModuleOutcome`
  (normal return, `asyncio.TimeoutError`, or any other exception).
* `raw_output` and the `metadata` mappings are `Any`-typed open
  diagnostic data unused by the engine; they are not modelled.
  Wall-clock `duration_seconds` of the report is likewise dropped.
* The engine converts `Asset` dataclasses to dicts field by field
  (engine.py lines 154-160); as the copy is the identity on the
  modelled fields, a single `Asset` type stands for both shapes.
-/

namespace VulnScan

/-- models.py `Severity` enum (a closed set of five values). -/
inductive Severity where
  | CRITICAL | HIGH | MEDIUM | LOW | INFO
deriving DecidableEq, Repr

/-- `Severity.value`: the string payload of the enum member. -/
def Severity.value : Severity → String
  | .CRITICAL => "CRITICAL"
  | .HIGH => "HIGH"
  | .MEDIUM => "MEDIUM"
  | .LOW => "LOW"
  | .INFO => "INFO"

/-- models.py `Asset` dataclass (`metadata` not modelled). -/
structure Asset where
  type : String
  value : String
deriving DecidableEq, Repr

/-- The finding dict built by `run_scan` (engine.py lines 162-175) and
consumed by `_generate_summary`.  A field of type `Option` models a
possibly missing dict key; for `cvssScore`, `none` also models a value
that is not an `int`/`float` (the `isinstance` guard at line 246). -/
structure FindingDict where
  title : String := ""
  severity : Option String := none
  category : Option String := none
  description : String := ""
  solution : String := ""
  cveId : Option String := none
  cvssScore : Option ℚ := none
  affectedComponent : String := ""
  evidence : String := ""
  references : List String := []
deriving DecidableEq, Repr

/-- models.py `ModuleResult` dataclass (`raw_output` not modelled).
`findings` are already in dict shape: `run_scan` maps each `Finding`
dataclass through the field-by-field dict conversion, with
`severity := finding.severity.value` always a `some` of an enum value
when produced this way. -/
structure ModuleResult where
  module_name : String
  assets : List Asset := []
  findings : List FindingDict := []
  errors : List String := []
  duration_seconds : ℚ := 0
deriving DecidableEq, Repr

/-! ## Python rounding and dict updates -/

/-- Python 3 `round` on a real value: round half to even. -/
def pyRound (q : ℚ) : ℤ :=
  let f : ℤ := ⌊q⌋
  let r : ℚ := q - f
  if r < 1/2 then f
  else if 1/2 < r then f + 1
  else if f % 2 = 0 then f else f + 1

/-- `d[k] = d.get(k, 0) + 1` on a Python dict with insertion order:
update the existing key in place, else append the new key. -/
def dictIncr : List (String × ℕ) → String → List (String × ℕ)
  | [], k => [(k, 1)]
  | (k', v) :: rest, k =>
    if k' = k then (k', v + 1) :: rest else (k', v) :: dictIncr rest k

/-- `d[k] = v` on a Python dict with insertion order. -/
def dictSet {β : Type} : List (String × β) → String → β → List (String × β)
  | [], k, v => [(k, v)]
  | (k', v') :: rest, k, v =>
    if k' = k then (k', v) :: rest else (k', v') :: dictSet rest k v

/-- `d.get(k)` on a Python dict embedded as an association list with
unique keys: the value stored under `k`, or `none` when the key is
absent. -/
def dictGet {β : Type} : List (String × β) → String → Option β
  | [], _ => none
  | (k', v) :: rest, k => if k' = k then some v else dictGet rest k

/-! ## `_estimate_cvss` (engine.py lines 279-331) -/

/-- The static `CATEGORY_CVSS` table of `_estimate_cvss`:
category → representative CVSS v3.1 base score; `none` for a category
absent from the table. -/
def CATEGORY_CVSS (category : String) : Option ℚ :=
  if category = "SQL_INJECTION" then some 9.8
  else if category = "COMMAND_INJECTION" then some 9.8
  else if category = "RFI" then some 9.1
  else if category = "SSRF" then some 8.6
  else if category = "XSS_STORED" then some 8.1
  else if category = "LFI" then some 7.5
  else if category = "PATH_TRAVERSAL" then some 7.5
  else if category = "IDOR" then some 7.5
  else if category = "XSS_REFLECTED" then some 6.1
  else if category = "CORS_MISCONFIG" then some 5.3
  else if category = "CSRF" then some 4.3
  else if category = "OPEN_REDIRECT" then some 4.3
  else if category = "SSL_TLS" then some 5.3
  else if category = "CERT_ISSUE" then some 4.8
  else if category = "SECURITY_HEADERS" then some 3.7
  else if category = "COOKIE_SECURITY" then some 3.5
  else if category = "HTTP_METHODS" then some 3.1
  else if category = "INFO_DISCLOSURE" then some 5.3
  else if category = "DIRECTORY_LISTING" then some 5.3
  else if category = "SENSITIVE_FILE" then some 5.3
  else if category = "OUTDATED_SOFTWARE" then some 5.6
  else if category = "DEFAULT_CREDENTIALS" then some 9.8
  else if category = "EMAIL_SECURITY" then some 3.7
  else if category = "WAF_DETECTED" then some 0.0
  else if category = "OTHER" then some 3.0
  else none

/-- The `SEVERITY_CVSS` fallback table of `_estimate_cvss`;
`SEVERITY_CVSS.get(severity, 0.0)` defaults to `0.0`. -/
def SEVERITY_CVSS (severity : String) : ℚ :=
  if severity = "CRITICAL" then 9.5
  else if severity = "HIGH" then 7.5
  else if severity = "MEDIUM" then 5.0
  else if severity = "LOW" then 2.5
  else if severity = "INFO" then 0.0
  else 0.0

/-- `ScanEngine._estimate_cvss`: category table first
(`finding.get("category", "OTHER")`), then the severity fallback
(`finding.get("severity", "INFO")`). -/
def estimate_cvss (finding : FindingDict) : ℚ :=
  let category := finding.category.getD "OTHER"
  let severity := finding.severity.getD "INFO"
  match CATEGORY_CVSS category with
  | some cvss => cvss
  | none => SEVERITY_CVSS severity

/-- The per-finding score used by `_generate_summary` (lines 244-249):
the explicit numeric `cvssScore` when present, else `_estimate_cvss`. -/
def findingCvss (f : FindingDict) : ℚ :=
  match f.cvssScore with
  | some c => c
  | none => estimate_cvss f

/-! ## `_generate_summary` (engine.py lines 226-277) -/

/-- The `cvss_distribution` histogram of `_generate_summary`. -/
structure CvssDistribution where
  critical_9_10 : ℕ
  high_7_9 : ℕ
  medium_4_7 : ℕ
  low_0_4 : ℕ
  info : ℕ
deriving DecidableEq, Repr

/-- The summary block.  The blocked-target branch of `run_scan` returns
a summary dict without the `avg_cvss`/`max_cvss`/`cvss_distribution`
keys; `none` in those fields models the absent key. -/
structure Summary where
  total_findings : ℕ
  severity_counts : List (String × ℕ)
  risk_score : ℤ
  security_score : ℤ
  avg_cvss : Option ℚ := none
  max_cvss : Option ℚ := none
  cvss_distribution : Option CvssDistribution := none
deriving DecidableEq, Repr

/-- Python `round(x, 1)`, embedded as exact half-to-even rounding at
one decimal (the binary-float decimal artefacts are not modelled). -/
def pyRound1 (q : ℚ) : ℚ := (pyRound (10 * q) : ℚ) / 10

/-- `max(scores)` on a non-empty Python list, `0.0` when empty. -/
def listMaxQ : List ℚ → ℚ
  | [] => 0
  | h :: t => t.foldl max h

/-- `ScanEngine._generate_summary`. -/
def generate_summary (findings : List FindingDict) : Summary :=
  let severity_counts :=
    findings.foldl (fun d f => dictIncr d (f.severity.getD "INFO"))
      [("CRITICAL", 0), ("HIGH", 0), ("MEDIUM", 0), ("LOW", 0), ("INFO", 0)]
  let total := findings.length
  let cvss_scores := findings.map findingCvss
  let avg_cvss : ℚ := cvss_scores.sum / (max cvss_scores.length 1 : ℕ)
  let count_factor : ℚ := min ((total : ℚ) / 5) 3
  let risk_score : ℤ := min 100 (pyRound (avg_cvss * 10 * max count_factor 1))
  let security_score : ℤ := max 0 (100 - risk_score)
  { total_findings := total
    severity_counts := severity_counts
    risk_score := risk_score
    security_score := security_score
    avg_cvss := some (pyRound1 avg_cvss)
    max_cvss := some (pyRound1 (listMaxQ cvss_scores))
    cvss_distribution := some
      { critical_9_10 := (cvss_scores.filter (fun s => 9 ≤ s)).length
        high_7_9 := (cvss_scores.filter (fun s => 7 ≤ s ∧ s < 9)).length
        medium_4_7 := (cvss_scores.filter (fun s => 4 ≤ s ∧ s < 7)).length
        low_0_4 := (cvss_scores.filter (fun s => 1/10 ≤ s ∧ s < 4)).length
        info := (cvss_scores.filter (fun s => s < 1/10)).length } }

/-! ## Target Guard: `_is_blocked_target` (engine.py lines 348-382)

IPv4 addresses are embedded as naturals below `2^32`.  After the
scheme/path/port strip, the hostname contains no colon (the strip ends
with `.split(":")[0]`), so `ipaddress.ip_address(hostname)` can only
succeed on an IPv4 dotted quad; `parseIPv4` models that parse, with
`none` for the `ValueError` branch.  DNS resolution is an oracle; each
returned socket address is either an IPv4 address or some other
address (IPv6 or unparsable), which can never lie inside the IPv4
blocked networks (`IPv4Network.__contains__` is version-strict, and a
`ValueError` on parse is skipped). -/

/-- Python `str.split(sep)` for a one-character separator, over the
character list of the string (`"".split(sep) == [""]`). -/
def splitOnChar (sep : Char) : List Char → List (List Char)
  | [] => [[]]
  | c :: rest =>
    if c = sep then [] :: splitOnChar sep rest
    else
      match splitOnChar sep rest with
      | g :: gs => (c :: g) :: gs
      | [] => [[c]]

/-- Python `int()` on a string of ASCII digits. -/
def digitsToNat (cs : List Char) : ℕ :=
  cs.foldl (fun n c => 10 * n + (c.toNat - 48)) 0

/-- One dotted-quad octet, per `ipaddress._parse_octet`: 1-3 ASCII
digits, no leading zero, value at most 255. -/
def parseOctet (cs : List Char) : Option ℕ :=
  if cs.length = 0 ∨ 3 < cs.length then none
  else if ¬ cs.all Char.isDigit then none
  else if 1 < cs.length ∧ cs.headD '0' = '0' then none
  else
    let n := digitsToNat cs
    if n ≤ 255 then some n else none

/-- `ipaddress.ip_address` on a colon-free string: an IPv4 dotted quad
of exactly four octets, or a parse failure. -/
def parseIPv4 (s : String) : Option ℕ :=
  match (splitOnChar '.' s.data).mapM parseOctet with
  | some [a, b, c, d] => some (((a * 256 + b) * 256 + c) * 256 + d)
  | _ => none

/-- `ipaddress.ip_network` on `"addr/prefix"` (strict: host bits must
be zero), as (network address, prefix length). -/
def parseCIDR (s : String) : Option (ℕ × ℕ) :=
  match splitOnChar '/' s.data with
  | [addr, plen] =>
    if plen ≠ [] ∧ plen.all Char.isDigit then
      match parseIPv4 ⟨addr⟩ with
      | some a =>
        let p := digitsToNat plen
        if p ≤ 32 ∧ a % 2 ^ (32 - p) = 0 then some (a, p) else none
      | none => none
    else none
  | _ => none

/-- config.py `blocked_cidrs` default value. -/
def config_blocked_cidrs : List String :=
  ["10.0.0.0/8", "172.16.0.0/12", "192.168.0.0/16", "127.0.0.0/8",
   "169.254.0.0/16"]

/-- The `blocked_networks` list built at the top of
`_is_blocked_target` (all five configured strings parse). -/
def blocked_networks : List (ℕ × ℕ) :=
  config_blocked_cidrs.filterMap parseCIDR

/-- `ip in net` for an IPv4 address and network: the high `prefix`
bits agree. -/
def ipInNet (ip : ℕ) (net : ℕ × ℕ) : Bool :=
  ip / 2 ^ (32 - net.2) = net.1 / 2 ^ (32 - net.2)

/-- One address from a `socket.getaddrinfo` result: an IPv4 address,
or anything else (IPv6 / unparsable), which no IPv4 network contains. -/
inductive SockAddr where
  | v4 (addr : ℕ)
  | other
deriving DecidableEq, Repr

/-- Whether one resolved socket address lies in a blocked network. -/
def sockAddrBlocked : SockAddr → Bool
  | .v4 a => blocked_networks.any (fun net => ipInNet a net)
  | .other => false

/-- Python `s.split(sep)[0]`: the characters before the first
occurrence of the separator. -/
def splitFirst (sep : Char) (cs : List Char) : List Char :=
  cs.takeWhile (fun c => c ≠ sep)

/-- The scheme/path/port strip of `_is_blocked_target`
(lines 356-360): drop a leading `https://` then a leading `http://`,
then keep the text before the first `/` and before the first `:`. -/
def stripHostname (target : String) : String :=
  let cs := target.data
  let cs := if "https://".data.isPrefixOf cs then cs.drop 8 else cs
  let cs := if "http://".data.isPrefixOf cs then cs.drop 7 else cs
  ⟨splitFirst ':' (splitFirst '/' cs)⟩

/-- `ScanEngine._is_blocked_target`, with DNS resolution as an oracle
(`none` models `socket.gaierror`, treated as "not blocked"). -/
def is_blocked_target (resolve : String → Option (List SockAddr))
    (target : String) : Bool :=
  let hostname := stripHostname target
  match parseIPv4 hostname with
  | some ip => blocked_networks.any (fun net => ipInNet ip net)
  | none =>
    match resolve hostname with
    | some addrs => addrs.any sockAddrBlocked
    | none => false

/-! ## Registry, profiles, options (modules/__init__.py, engine.py) -/

/-- The keys of `MODULE_REGISTRY` (modules/__init__.py).  The mapped
classes perform network I/O; a module invocation's outcome is the
`behavior` oracle of `runScan`. -/
def MODULE_REGISTRY : List String :=
  ["port_scanner", "dns_enumerator", "ssl_analyzer", "web_crawler",
   "tech_detector", "vuln_checker", "subdomain_takeover",
   "admin_detector", "nvd_cve_matcher", "waf_detector", "recon_module",
   "default_creds_checker", "api_discovery"]

/-- `SCAN_PROFILES["QUICK"]`. -/
def QUICK_MODULES : List String :=
  ["dns_enumerator", "ssl_analyzer", "tech_detector"]

/-- `SCAN_PROFILES["STANDARD"]`. -/
def STANDARD_MODULES : List String :=
  ["dns_enumerator", "port_scanner", "ssl_analyzer", "web_crawler",
   "tech_detector", "admin_detector", "recon_module"]

/-- `SCAN_PROFILES["DEEP"]`. -/
def DEEP_MODULES : List String :=
  ["dns_enumerator", "port_scanner", "ssl_analyzer", "web_crawler",
   "tech_detector", "waf_detector", "recon_module", "vuln_checker",
   "subdomain_takeover", "admin_detector", "nvd_cve_matcher",
   "api_discovery", "api_security"]

/-- engine.py `SCAN_PROFILES`. -/
def SCAN_PROFILES : List (String × List String) :=
  [("QUICK", QUICK_MODULES), ("STANDARD", STANDARD_MODULES),
   ("DEEP", DEEP_MODULES)]

/-- `SCAN_PROFILES.get(profile, SCAN_PROFILES["STANDARD"])`. -/
def lookupProfile (profile : String) : List String :=
  match SCAN_PROFILES.find? (fun p => p.1 = profile) with
  | some p => p.2
  | none => STANDARD_MODULES

/-- The per-module options dict the engine passes to `module.run`
(only the keys the engine itself reads or writes are modelled; other
module-specific entries of `opts.get(module_name, {})` are opaque). -/
structure ModuleOpts where
  discovered_assets : Option (List Asset) := none
  exclude_paths : List String := []
  exclude_subdomains : List String := []
  exclude_ports : List ℤ := []
  exclusion_rules : List String := []
deriving DecidableEq, Repr

/-- The `options` argument of `run_scan`.  `modules := []` models both
a missing `"modules"` key and an empty list (the same Python
truthiness); `exclusion_rules` entries are opaque to the engine and
stand for the structured rule dicts; `module_opts` is the sub-dict
`opts.get(name, {})` for each module name. -/
structure ScanOptions where
  modules : List String := []
  exclude_paths : List String := []
  exclude_subdomains : List String := []
  exclude_ports : List ℤ := []
  exclude_modules : List String := []
  exclusion_rules : List String := []
  module_opts : String → ModuleOpts := fun _ => {}

/-- Module-name resolution (engine.py lines 90-94): an explicit CUSTOM
list filtered to registered names, else the profile table with the
STANDARD default. -/
def resolveModules (profile : String) (opts : ScanOptions) : List String :=
  if profile = "CUSTOM" ∧ opts.modules ≠ [] then
    opts.modules.filter (fun m => m ∈ MODULE_REGISTRY)
  else
    lookupProfile profile

/-- The final module-name list after the `exclude_modules` filter
(engine.py lines 112-114); `modules_total` is its length. -/
def finalNames (profile : String) (opts : ScanOptions) : List String :=
  let ns := resolveModules profile opts
  if opts.exclude_modules ≠ [] then
    ns.filter (fun m => m ∉ opts.exclude_modules)
  else ns

/-- The tuple at engine.py line 135: module names that receive the
`discovered_assets` option. -/
def assetConsumers : List String :=
  ["vuln_checker", "subdomain_takeover", "nvd_cve_matcher",
   "admin_detector"]

/-- Build the options for one `module.run` call (engine.py
lines 131-146): start from `opts.get(module_name, {})`, set
`discovered_assets` for the consumer tuple, then overwrite each
exclusion key whenever the corresponding global option is non-empty. -/
def buildModuleOpts (opts : ScanOptions) (name : String)
    (discovered : List Asset) : ModuleOpts :=
  let mo := opts.module_opts name
  let mo := if name ∈ assetConsumers then
      { mo with discovered_assets := some discovered } else mo
  let mo := if opts.exclude_paths ≠ [] then
      { mo with exclude_paths := opts.exclude_paths } else mo
  let mo := if opts.exclude_subdomains ≠ [] then
      { mo with exclude_subdomains := opts.exclude_subdomains } else mo
  let mo := if opts.exclude_ports ≠ [] then
      { mo with exclude_ports := opts.exclude_ports } else mo
  if opts.exclusion_rules ≠ [] then
      { mo with exclusion_rules := opts.exclusion_rules } else mo

/-! ## The orchestration loop (engine.py lines 116-224) -/

/-- The outcome of `await asyncio.wait_for(module.run(...), ...)` for
the module at a given loop position: a normal return, an
`asyncio.TimeoutError`, or any other exception with its message. -/
inductive ModuleOutcome where
  | ok (result : ModuleResult)
  | timeout
  | exn (message : String)
deriving DecidableEq, Repr

/-- Whether an outcome is a normal return. -/
def ModuleOutcome.isOk : ModuleOutcome → Bool
  | .ok _ => true
  | _ => false

/-- The per-module entry recorded in `module_results` on a normal
return (engine.py lines 178-183). -/
structure ModuleResultSummary where
  assets : ℕ
  findings : ℕ
  errors : List String
  duration : ℚ
deriving DecidableEq, Repr

/-- An executed `module.run` call: loop position, module name, and the
options dict passed (a model artefact recording the invocation
trace). -/
abbrev Call : Type := ℕ × String × ModuleOpts

/-- The mutable state of the orchestration loop. -/
structure LoopState where
  completed : ℕ := 0
  all_assets : List Asset := []
  all_findings : List FindingDict := []
  module_results : List (String × ModuleResultSummary) := []
  all_errors : List String := []
  calls : List Call := []

/-- The `for i, module_name in enumerate(module_names)` loop of
`run_scan` (engine.py lines 116-200): skip unknown names; otherwise
build options (snapshotting the by-reference `all_assets` list at call
time, which under sequential execution holds exactly the assets
emitted so far), invoke the module, and fold its outcome into the
state.  Progress reporting has no effect on the report (its exceptions
are swallowed) and is not modelled. -/
def runModules (opts : ScanOptions) (behavior : ℕ → ModuleOutcome) :
    List (ℕ × String) → LoopState → LoopState
  | [], st => st
  | (i, name) :: rest, st =>
    if name ∈ MODULE_REGISTRY then
      let mopts := buildModuleOpts opts name st.all_assets
      let st' := { st with calls := st.calls ++ [(i, name, mopts)] }
      let st'' :=
        match behavior i with
        | .ok r =>
          { st' with
            all_assets := st'.all_assets ++ r.assets
            all_findings := st'.all_findings ++ r.findings
            module_results := dictSet st'.module_results name
              ⟨r.assets.length, r.findings.length, r.errors,
               r.duration_seconds⟩
            all_errors := st'.all_errors ++ r.errors
            completed := st'.completed + 1 }
        | .timeout =>
          { st' with all_errors :=
              st'.all_errors ++ ["Module " ++ name ++ " timed out"] }
        | .exn msg =>
          { st' with all_errors :=
              st'.all_errors ++ ["Module " ++ name ++ " failed: " ++ msg] }
      runModules opts behavior rest st''
    else
      runModules opts behavior rest st

/-- The final report of `run_scan`. -/
structure ScanReport where
  target : String
  profile : String
  modules_completed : ℕ
  modules_total : ℕ
  assets : List Asset
  findings : List FindingDict
  module_results : List (String × ModuleResultSummary)
  errors : List String
  summary : Summary
deriving DecidableEq, Repr

/-- The hard-coded summary of the blocked-target early return
(engine.py line 87). -/
def blockedSummary : Summary :=
  { total_findings := 0, severity_counts := [], risk_score := 0,
    security_score := 100 }

/-- `ScanEngine.run_scan`, with DNS resolution and module outcomes as
oracles.  Returns the report together with the trace of executed
`module.run` calls (the trace is a model artefact used to state the
orchestration properties). -/
def runScan (resolve : String → Option (List SockAddr))
    (behavior : ℕ → ModuleOutcome) (target : String) (profile : String)
    (opts : ScanOptions) : ScanReport × List Call :=
  if is_blocked_target resolve target then
    ({ target := target, profile := profile, modules_completed := 0,
       modules_total := 0, assets := [], findings := [],
       module_results := [],
       errors := ["Target '" ++ target ++
         "' resolves to a blocked/private IP range."],
       summary := blockedSummary }, [])
  else
    let module_names := finalNames profile opts
    let st := runModules opts behavior module_names.enum {}
    ({ target := target, profile := profile,
       modules_completed := st.completed,
       modules_total := module_names.length,
       assets := st.all_assets, findings := st.all_findings,
       module_results := st.module_results, errors := st.all_errors,
       summary := generate_summary st.all_findings }, st.calls)

/-! ## Specification-side trace observations -/

/-- Assets emitted by one executed call (empty on timeout/failure). -/
def callAssets (behavior : ℕ → ModuleOutcome) (c : Call) : List Asset :=
  match behavior c.1 with
  | .ok r => r.assets
  | _ => []

/-- Findings emitted by one executed call. -/
def callFindings (behavior : ℕ → ModuleOutcome) (c : Call) :
    List FindingDict :=
  match behavior c.1 with
  | .ok r => r.findings
  | _ => []

/-- Error strings one executed call contributes to the report's global
`errors` list: the module's own errors on a normal return, or the
synthetic timeout/failure message. -/
def callErrors (behavior : ℕ → ModuleOutcome) (c : Call) : List String :=
  match behavior c.1 with
  | .ok r => r.errors
  | .timeout => ["Module " ++ c.2.1 ++ " timed out"]
  | .exn msg => ["Module " ++ c.2.1 ++ " failed: " ++ msg]

/-- The call trace of the orchestration loop as a pure recursion over
the enumerated module names, threading the accumulated asset list:
unknown names contribute no call; a known name is called with the
options built from the assets accumulated so far. -/
def traceFrom (opts : ScanOptions) (behavior : ℕ → ModuleOutcome) :
    List (ℕ × String) → List Asset → List Call
  | [], _ => []
  | (i, name) :: rest, acc =>
    if name ∈ MODULE_REGISTRY then
      let mopts := buildModuleOpts opts name acc
      (i, name, mopts) ::
        traceFrom opts behavior rest
          (acc ++ callAssets behavior (i, name, mopts))
    else traceFrom opts behavior rest acc

/-- The five standard severity buckets, in the insertion order of
`_generate_summary`'s initial dict. -/
def standardSeverities : List String :=
  ["CRITICAL", "HIGH", "MEDIUM", "LOW", "INFO"]

/-! ## Concrete scan instances used by witnesses and counterexamples -/

/-- A resolver for which every hostname lookup fails
(`socket.gaierror`): the guard then blocks only literal IPs. -/
def noResolve : String → Option (List SockAddr) := fun _ => none

/-- An open port asset used by the concrete scans. -/
def portAsset : Asset := { type := "PORT", value := "80" }

/-- A two-module CUSTOM scan: port scanning, then credential testing. -/
def credOpts : ScanOptions :=
  { modules := ["port_scanner", "default_creds_checker"] }

/-- Behavior for `credOpts`: the port scanner returns one asset, the
credential checker returns an empty result. -/
def credBehavior : ℕ → ModuleOutcome := fun i =>
  if i = 0 then
    .ok { module_name := "port_scanner", assets := [portAsset] }
  else
    .ok { module_name := "default_creds_checker" }

/-- A two-module CUSTOM scan: port scanning, then injection testing. -/
def vulnOpts : ScanOptions :=
  { modules := ["port_scanner", "vuln_checker"] }

/-- Behavior for `vulnOpts`: the port scanner returns one asset, the
vulnerability checker returns an empty result. -/
def vulnBehavior : ℕ → ModuleOutcome := fun i =>
  if i = 0 then
    .ok { module_name := "port_scanner", assets := [portAsset] }
  else
    .ok { module_name := "vuln_checker" }

/-- A two-module CUSTOM scan: DNS enumeration, then port scanning. -/
def dnsPortOpts : ScanOptions :=
  { modules := ["dns_enumerator", "port_scanner"] }

/-- Behavior for `dnsPortOpts` where the first module returns an asset
and a finding and the second raises an exception with message
`"boom"`. -/
def failBehavior : ℕ → ModuleOutcome := fun i =>
  if i = 0 then
    .ok { module_name := "dns_enumerator"
          assets := [{ type := "SUBDOMAIN", value := "a.example.com" }]
          findings := [{ title := "zone transfer", severity := some "LOW",
                         category := some "OTHER" }] }
  else
    .exn "boom"

/-- Behavior for `dnsPortOpts` where the first module times out and
the second returns normally. -/
def timeoutBehavior : ℕ → ModuleOutcome := fun i =>
  if i = 0 then .timeout
  else .ok { module_name := "port_scanner", assets := [portAsset] }

/-- Behavior in which every module invocation times out. -/
def allTimeout : ℕ → ModuleOutcome := fun _ => .timeout

/-! ## Dict-update lemmas -/

theorem dictIncr_sum (d : List (String × ℕ)) (k : String) :
    ((dictIncr d k).map Prod.snd).sum = (d.map Prod.snd).sum + 1 := by
  induction d with
  | nil => simp [dictIncr]
  | cons p rest ih =>
    obtain ⟨k', v⟩ := p
    by_cases h : k' = k <;> simp [dictIncr, h, ih] <;> omega

theorem dictIncr_keys_mono (d : List (String × ℕ)) (k n : String)
    (h : n ∈ d.map Prod.fst) : n ∈ (dictIncr d k).map Prod.fst := by
  induction d with
  | nil => simp [dictIncr] at h
  | cons p rest ih =>
    obtain ⟨k', v⟩ := p
    by_cases hk : k' = k
    · simpa [dictIncr, hk] using h
    · rcases (by simpa using h : n = k' ∨ n ∈ rest.map Prod.fst) with h' | h'
      · simp [dictIncr, hk, h']
      · simp [dictIncr, hk, ih h']

theorem dictIncr_keys_of_mem (d : List (String × ℕ)) (k : String)
    (h : k ∈ d.map Prod.fst) :
    (dictIncr d k).map Prod.fst = d.map Prod.fst := by
  induction d with
  | nil => simp [dictIncr] at h
  | cons p rest ih =>
    obtain ⟨k', v⟩ := p
    by_cases hk : k' = k
    · simp [dictIncr, hk]
    · rcases (by simpa using h : k = k' ∨ k ∈ rest.map Prod.fst) with h' | h'
      · exact absurd h'.symm hk
      · simp [dictIncr, hk, ih h']

theorem dictGet_dictIncr_eq (d : List (String × ℕ)) (k : String) :
    dictGet (dictIncr d k) k = some ((dictGet d k).getD 0 + 1) := by
  induction d with
  | nil => simp [dictIncr, dictGet]
  | cons p rest ih =>
    obtain ⟨k', v⟩ := p
    by_cases h : k' = k <;> simp [dictIncr, dictGet, h, ih]

theorem dictGet_dictIncr_ne (d : List (String × ℕ)) (k n : String)
    (hne : n ≠ k) : dictGet (dictIncr d k) n = dictGet d n := by
  induction d with
  | nil => simp [dictIncr, dictGet, Ne.symm hne]
  | cons p rest ih =>
    obtain ⟨k', v⟩ := p
    by_cases h : k' = k
    · subst h
      simp [dictIncr, dictGet, Ne.symm hne]
    · by_cases h2 : k' = n <;> simp [dictIncr, dictGet, h, h2, hne, ih]

theorem dictSet_exists_mem {β : Type} (d : List (String × β)) (k n : String)
    (v : β) :
    (∃ s, (n, s) ∈ dictSet d k v) ↔ (n = k ∨ ∃ s, (n, s) ∈ d) := by
  induction d with
  | nil => simp [dictSet]
  | cons p rest ih =>
    obtain ⟨k', v'⟩ := p
    by_cases hk : k' = k
    · subst hk
      constructor
      · rintro ⟨s, hs⟩
        rcases (by simpa [dictSet] using hs) with ⟨h1, -⟩ | h2
        · exact Or.inl h1
        · exact Or.inr ⟨s, by simp [h2]⟩
      · rintro (h | ⟨s, hs⟩)
        · exact ⟨v, by simp [dictSet, h]⟩
        · rcases (by simpa using hs) with ⟨h1, -⟩ | h2
          · exact ⟨v, by simp [dictSet, h1]⟩
          · exact ⟨s, by simp [dictSet, h2]⟩
    · constructor
      · rintro ⟨s, hs⟩
        rcases (by simpa [dictSet, hk] using hs) with ⟨h1, h2⟩ | h2
        · exact Or.inr ⟨s, by simp [h1, h2]⟩
        · rcases ih.mp ⟨s, h2⟩ with h | ⟨s', hs'⟩
          · exact Or.inl h
          · exact Or.inr ⟨s', by simp [hs']⟩
      · rintro (h | ⟨s, hs⟩)
        · rcases ih.mpr (Or.inl h) with ⟨s, hs⟩
          exact ⟨s, by simp [dictSet, hk, hs]⟩
        · rcases (by simpa using hs) with ⟨h1, h2⟩ | h2
          · exact ⟨s, by simp [dictSet, hk, h1, h2]⟩
          · rcases ih.mpr (Or.inr ⟨s, h2⟩) with ⟨s', hs'⟩
            exact ⟨s', by simp [dictSet, hk, hs']⟩

/-! ## Rounding lemmas -/

theorem pyRound_floor_le (q : ℚ) : ⌊q⌋ ≤ pyRound q := by
  unfold pyRound
  dsimp only
  split_ifs <;> omega

theorem pyRound_le_floor_add_one (q : ℚ) : pyRound q ≤ ⌊q⌋ + 1 := by
  unfold pyRound
  dsimp only
  split_ifs <;> omega

theorem pyRound_intCast (n : ℤ) : pyRound (n : ℚ) = n := by
  unfold pyRound
  rw [Int.floor_intCast]
  norm_num

theorem pyRound_hundred : pyRound 100 = 100 := by
  have : ((100 : ℤ) : ℚ) = (100 : ℚ) := by norm_num
  rw [← this, pyRound_intCast]

/-- `round` commutes with clamping at 100:
`round(min(100, x)) = min(100, round(x))`. -/
theorem pyRound_min_100 (q : ℚ) : pyRound (min 100 q) = min 100 (pyRound q) := by
  rcases le_total q 100 with h | h
  · rw [min_eq_right h]
    have hfl : ⌊q⌋ ≤ 100 := by
      have h' := Int.floor_le_floor h
      rwa [show ⌊(100 : ℚ)⌋ = 100 by norm_num] at h'
    rcases eq_or_lt_of_le hfl with heq | hlt
    · have hq : (100 : ℚ) ≤ q := by
        have := Int.floor_le q
        rw [heq] at this
        exact_mod_cast this
      have hq' : q = 100 := le_antisymm h hq
      subst hq'
      rw [pyRound_hundred]
      simp
    · have hle : pyRound q ≤ 100 :=
        le_trans (pyRound_le_floor_add_one q) (by omega)
      rw [min_eq_right hle]
  · rw [min_eq_left h]
    have h100 : (100 : ℤ) ≤ ⌊q⌋ := by
      rw [Int.le_floor]
      exact_mod_cast h
    have hle : (100 : ℤ) ≤ pyRound q := le_trans h100 (pyRound_floor_le q)
    rw [min_eq_left hle, pyRound_hundred]

/-! ## Enumeration lemma -/

theorem enumFrom_filter_map_snd (p : String → Bool) (l : List String) (n : ℕ) :
    (((List.enumFrom n l).filter (fun q => p q.2)).map Prod.snd) = l.filter p := by
  induction l generalizing n with
  | nil => simp
  | cons a t ih =>
    by_cases h : p a <;> simp [List.enumFrom, h, ih]

/-! ## Options-construction lemmas -/

theorem buildModuleOpts_discovered (opts : ScanOptions) (name : String)
    (discovered : List Asset) (h : name ∈ assetConsumers) :
    (buildModuleOpts opts name discovered).discovered_assets =
      some discovered := by
  unfold buildModuleOpts
  dsimp only
  split_ifs with h1 h2 h3 h4 h5 <;> simp_all

/-! ## Trace lemmas -/

theorem traceFrom_names (opts : ScanOptions) (behavior : ℕ → ModuleOutcome)
    (l : List (ℕ × String)) (acc : List Asset) :
    (traceFrom opts behavior l acc).map (fun c => (c.1, c.2.1)) =
      l.filter (fun q => q.2 ∈ MODULE_REGISTRY) := by
  induction l generalizing acc with
  | nil => simp [traceFrom]
  | cons hd t ih =>
    obtain ⟨i, name⟩ := hd
    by_cases h : name ∈ MODULE_REGISTRY <;> simp [traceFrom, h, ih]

/-- Strict causality of the trace: a consumer call decomposed as
`pre ++ c :: post` received exactly the starting accumulator plus the
assets of the calls in `pre`. -/
theorem traceFrom_causal (opts : ScanOptions) (behavior : ℕ → ModuleOutcome)
    (l : List (ℕ × String)) (acc : List Asset) (pre : List Call) (c : Call)
    (post : List Call)
    (hsplit : traceFrom opts behavior l acc = pre ++ c :: post)
    (hmem : c.2.1 ∈ assetConsumers) :
    c.2.2.discovered_assets =
      some (acc ++ pre.flatMap (callAssets behavior)) := by
  induction l generalizing acc pre with
  | nil => simp [traceFrom] at hsplit
  | cons hd t ih =>
    obtain ⟨i, name⟩ := hd
    by_cases hreg : name ∈ MODULE_REGISTRY
    · rw [traceFrom, if_pos hreg] at hsplit
      cases pre with
      | nil =>
        simp only [List.nil_append, List.cons.injEq] at hsplit
        obtain ⟨hc, -⟩ := hsplit
        rw [← hc] at hmem ⊢
        simp [buildModuleOpts_discovered opts name acc hmem]
      | cons p pre' =>
        simp only [List.cons_append, List.cons.injEq] at hsplit
        obtain ⟨hp, hrest⟩ := hsplit
        rw [ih _ _ hrest]
        rw [← hp]
        simp

    · rw [traceFrom, if_neg hreg] at hsplit
      exact ih _ _ hsplit

/-! ## Loop characterization lemmas -/

theorem runModules_calls (opts : ScanOptions) (behavior : ℕ → ModuleOutcome)
    (l : List (ℕ × String)) (st : LoopState) :
    (runModules opts behavior l st).calls =
      st.calls ++ traceFrom opts behavior l st.all_assets := by
  induction l generalizing st with
  | nil => simp [runModules, traceFrom]
  | cons hd t ih =>
    obtain ⟨i, name⟩ := hd
    by_cases hreg : name ∈ MODULE_REGISTRY
    · rcases hbeh : behavior i with r | _ | msg <;>
        simp [runModules, traceFrom, hreg, ih, hbeh, callAssets]
    · simp [runModules, traceFrom, hreg, ih]

theorem runModules_assets (opts : ScanOptions) (behavior : ℕ → ModuleOutcome)
    (l : List (ℕ × String)) (st : LoopState) :
    (runModules opts behavior l st).all_assets =
      st.all_assets ++
        (traceFrom opts behavior l st.all_assets).flatMap
          (callAssets behavior) := by
  induction l generalizing st with
  | nil => simp [runModules, traceFrom]
  | cons hd t ih =>
    obtain ⟨i, name⟩ := hd
    by_cases hreg : name ∈ MODULE_REGISTRY
    · rcases hbeh : behavior i with r | _ | msg <;>
        simp [runModules, traceFrom, hreg, ih, hbeh, callAssets]
    · simp [runModules, traceFrom, hreg, ih]

theorem runModules_findings (opts : ScanOptions) (behavior : ℕ → ModuleOutcome)
    (l : List (ℕ × String)) (st : LoopState) :
    (runModules opts behavior l st).all_findings =
      st.all_findings ++
        (traceFrom opts behavior l st.all_assets).flatMap
          (callFindings behavior) := by
  induction l generalizing st with
  | nil => simp [runModules, traceFrom]
  | cons hd t ih =>
    obtain ⟨i, name⟩ := hd
    by_cases hreg : name ∈ MODULE_REGISTRY
    · rcases hbeh : behavior i with r | _ | msg <;>
        simp [runModules, traceFrom, hreg, ih, hbeh, callAssets, callFindings]
    · simp [runModules, traceFrom, hreg, ih]

theorem runModules_errors (opts : ScanOptions) (behavior : ℕ → ModuleOutcome)
    (l : List (ℕ × String)) (st : LoopState) :
    (runModules opts behavior l st).all_errors =
      st.all_errors ++
        (traceFrom opts behavior l st.all_assets).flatMap
          (callErrors behavior) := by
  induction l generalizing st with
  | nil => simp [runModules, traceFrom]
  | cons hd t ih =>
    obtain ⟨i, name⟩ := hd
    by_cases hreg : name ∈ MODULE_REGISTRY
    · rcases hbeh : behavior i with r | _ | msg <;>
        simp [runModules, traceFrom, hreg, ih, hbeh, callAssets, callErrors]
    · simp [runModules, traceFrom, hreg, ih]

theorem runModules_completed (opts : ScanOptions)
    (behavior : ℕ → ModuleOutcome) (l : List (ℕ × String)) (st : LoopState) :
    (runModules opts behavior l st).completed =
      st.completed +
        ((traceFrom opts behavior l st.all_assets).filter
          (fun c => (behavior c.1).isOk)).length := by
  induction l generalizing st with
  | nil => simp [runModules, traceFrom]
  | cons hd t ih =>
    obtain ⟨i, name⟩ := hd
    by_cases hreg : name ∈ MODULE_REGISTRY
    · rcases hbeh : behavior i with r | _ | msg <;>
        simp [runModules, traceFrom, hreg, ih, hbeh, callAssets,
          ModuleOutcome.isOk]
      all_goals omega
    · simp [runModules, traceFrom, hreg, ih]

theorem runModules_results (opts : ScanOptions)
    (behavior : ℕ → ModuleOutcome) (l : List (ℕ × String)) (st : LoopState)
    (n : String) :
    (∃ s, (n, s) ∈ (runModules opts behavior l st).module_results) ↔
      ((∃ s, (n, s) ∈ st.module_results) ∨
        ∃ c ∈ traceFrom opts behavior l st.all_assets,
          c.2.1 = n ∧ (behavior c.1).isOk = true) := by
  induction l generalizing st with
  | nil => simp [runModules, traceFrom]
  | cons hd t ih =>
    obtain ⟨i, name⟩ := hd
    by_cases hreg : name ∈ MODULE_REGISTRY
    · rcases hbeh : behavior i with r | _ | msg
      · rw [runModules]
        simp only [hreg, if_true, hbeh]
        rw [ih]
        rw [dictSet_exists_mem]
        simp [traceFrom, hreg, hbeh, callAssets, ModuleOutcome.isOk]
        tauto
      · rw [runModules]
        simp only [hreg, if_true, hbeh]
        rw [ih]
        simp [traceFrom, hreg, hbeh, callAssets, ModuleOutcome.isOk]
      · rw [runModules]
        simp only [hreg, if_true, hbeh]
        rw [ih]
        simp [traceFrom, hreg, hbeh, callAssets, ModuleOutcome.isOk]
    · rw [runModules]
      simp only [hreg, if_false]
      rw [ih]
      simp [traceFrom, hreg]

/-! ## `run_scan` characterization under a non-blocked target -/

theorem runScan_trace (resolve : String → Option (List SockAddr))
    (behavior : ℕ → ModuleOutcome) (target profile : String)
    (opts : ScanOptions)
    (hnb : is_blocked_target resolve target = false) :
    (runScan resolve behavior target profile opts).2 =
      traceFrom opts behavior (finalNames profile opts).enum [] := by
  simp only [runScan, hnb, Bool.false_eq_true, if_false]
  simpa using runModules_calls opts behavior (finalNames profile opts).enum {}

theorem runScan_call_names (resolve : String → Option (List SockAddr))
    (behavior : ℕ → ModuleOutcome) (target profile : String)
    (opts : ScanOptions)
    (hnb : is_blocked_target resolve target = false) :
    ((runScan resolve behavior target profile opts).2.map
        (fun c => c.2.1)) =
      (finalNames profile opts).filter (fun m => m ∈ MODULE_REGISTRY) := by
  rw [runScan_trace resolve behavior target profile opts hnb]
  have h1 := traceFrom_names opts behavior (finalNames profile opts).enum []
  have h2 : (traceFrom opts behavior (finalNames profile opts).enum []).map
      (fun c => c.2.1) =
      ((traceFrom opts behavior (finalNames profile opts).enum []).map
        (fun c => (c.1, c.2.1))).map Prod.snd := by
    simp [Function.comp]
  rw [h2, h1, List.enum]
  exact enumFrom_filter_map_snd (fun m => decide (m ∈ MODULE_REGISTRY))
    (finalNames profile opts) 0

theorem runScan_assets (resolve : String → Option (List SockAddr))
    (behavior : ℕ → ModuleOutcome) (target profile : String)
    (opts : ScanOptions)
    (hnb : is_blocked_target resolve target = false) :
    (runScan resolve behavior target profile opts).1.assets =
      (runScan resolve behavior target profile opts).2.flatMap
        (callAssets behavior) := by
  rw [runScan_trace resolve behavior target profile opts hnb]
  simp only [runScan, hnb, Bool.false_eq_true, if_false]
  simpa using runModules_assets opts behavior (finalNames profile opts).enum {}

theorem runScan_findings (resolve : String → Option (List SockAddr))
    (behavior : ℕ → ModuleOutcome) (target profile : String)
    (opts : ScanOptions)
    (hnb : is_blocked_target resolve target = false) :
    (runScan resolve behavior target profile opts).1.findings =
      (runScan resolve behavior target profile opts).2.flatMap
        (callFindings behavior) := by
  rw [runScan_trace resolve behavior target profile opts hnb]
  simp only [runScan, hnb, Bool.false_eq_true, if_false]
  simpa using runModules_findings opts behavior (finalNames profile opts).enum {}

theorem runScan_errors (resolve : String → Option (List SockAddr))
    (behavior : ℕ → ModuleOutcome) (target profile : String)
    (opts : ScanOptions)
    (hnb : is_blocked_target resolve target = false) :
    (runScan resolve behavior target profile opts).1.errors =
      (runScan resolve behavior target profile opts).2.flatMap
        (callErrors behavior) := by
  rw [runScan_trace resolve behavior target profile opts hnb]
  simp only [runScan, hnb, Bool.false_eq_true, if_false]
  simpa using runModules_errors opts behavior (finalNames profile opts).enum {}

theorem runScan_completed (resolve : String → Option (List SockAddr))
    (behavior : ℕ → ModuleOutcome) (target profile : String)
    (opts : ScanOptions)
    (hnb : is_blocked_target resolve target = false) :
    (runScan resolve behavior target profile opts).1.modules_completed =
      ((runScan resolve behavior target profile opts).2.filter
        (fun c => (behavior c.1).isOk)).length := by
  rw [runScan_trace resolve behavior target profile opts hnb]
  simp only [runScan, hnb, Bool.false_eq_true, if_false]
  simpa using runModules_completed opts behavior (finalNames profile opts).enum {}

theorem runScan_total (resolve : String → Option (List SockAddr))
    (behavior : ℕ → ModuleOutcome) (target profile : String)
    (opts : ScanOptions)
    (hnb : is_blocked_target resolve target = false) :
    (runScan resolve behavior target profile opts).1.modules_total =
      (finalNames profile opts).length := by
  simp only [runScan, hnb, Bool.false_eq_true, if_false]

theorem runScan_results (resolve : String → Option (List SockAddr))
    (behavior : ℕ → ModuleOutcome) (target profile : String)
    (opts : ScanOptions)
    (hnb : is_blocked_target resolve target = false) (n : String) :
    (∃ s, (n, s) ∈
        (runScan resolve behavior target profile opts).1.module_results) ↔
      ∃ c ∈ (runScan resolve behavior target profile opts).2,
        c.2.1 = n ∧ (behavior c.1).isOk = true := by
  rw [runScan_trace resolve behavior target profile opts hnb]
  simp only [runScan, hnb, Bool.false_eq_true, if_false]
  have h := runModules_results opts behavior (finalNames profile opts).enum {} n
  simpa using h

/-! ## Severity-tally fold lemmas -/

theorem severityFold_sum (findings : List FindingDict)
    (d : List (String × ℕ)) :
    (((findings.foldl (fun d f => dictIncr d (f.severity.getD "INFO")) d)).map
        Prod.snd).sum =
      (d.map Prod.snd).sum + findings.length := by
  induction findings generalizing d with
  | nil => simp
  | cons f t ih =>
    simp only [List.foldl_cons, List.length_cons, ih, dictIncr_sum]
    omega

theorem severityFold_keys_mono (findings : List FindingDict)
    (d : List (String × ℕ)) (n : String) (h : n ∈ d.map Prod.fst) :
    n ∈ (findings.foldl (fun d f => dictIncr d (f.severity.getD "INFO"))
        d).map Prod.fst := by
  induction findings generalizing d with
  | nil => simpa using h
  | cons f t ih => exact ih _ (dictIncr_keys_mono d _ n h)

/-- Value-level characterization of the severity fold: the count
stored under any key `n` is the starting value (when the key was
present) plus the number of findings tallied at `n`, where a finding
is tallied at its literal `severity` value, defaulting to `"INFO"`
only when the key is missing; a key absent from the start appears
exactly when some finding is tallied at it. -/
theorem severityFold_get (findings : List FindingDict)
    (d : List (String × ℕ)) (n : String) :
    dictGet (findings.foldl
        (fun d f => dictIncr d (f.severity.getD "INFO")) d) n =
      match dictGet d n with
      | some v => some (v + (findings.filter
          (fun f => f.severity.getD "INFO" = n)).length)
      | none =>
        if (findings.filter
            (fun f => f.severity.getD "INFO" = n)).length = 0 then none
        else some ((findings.filter
          (fun f => f.severity.getD "INFO" = n)).length) := by
  induction findings generalizing d with
  | nil => cases hd : dictGet d n <;> simp [hd]
  | cons f t ih =>
    rw [List.foldl_cons, ih]
    by_cases hsev : f.severity.getD "INFO" = n
    · rw [hsev, dictGet_dictIncr_eq]
      cases hd : dictGet d n <;>
        simp [hd, List.filter_cons, hsev] <;> omega
    · rw [dictGet_dictIncr_ne d _ n (fun h => hsev h.symm)]
      cases hd : dictGet d n <;> simp [hd, List.filter_cons, hsev]

/-- `dictGet` on `_generate_summary`'s initial five-bucket dict. -/
theorem dictGet_initCounts (n : String) :
    dictGet [("CRITICAL", 0), ("HIGH", 0), ("MEDIUM", 0), ("LOW", 0),
      ("INFO", 0)] n = if n ∈ standardSeverities then some 0 else none := by
  by_cases h : n ∈ standardSeverities
  · rcases (by simpa [standardSeverities] using h :
        n = "CRITICAL" ∨ n = "HIGH" ∨ n = "MEDIUM" ∨ n = "LOW" ∨
          n = "INFO") with rfl | rfl | rfl | rfl | rfl <;> decide
  · obtain ⟨h1, h2, h3, h4, h5⟩ :
        ¬n = "CRITICAL" ∧ ¬n = "HIGH" ∧ ¬n = "MEDIUM" ∧ ¬n = "LOW" ∧
          ¬n = "INFO" := by simpa [standardSeverities] using h
    simp [dictGet, Ne.symm h1, Ne.symm h2, Ne.symm h3, Ne.symm h4,
      Ne.symm h5, h]

theorem severityFold_keys_eq (findings : List FindingDict)
    (d : List (String × ℕ))
    (h : ∀ f ∈ findings, f.severity.getD "INFO" ∈ d.map Prod.fst) :
    (findings.foldl (fun d f => dictIncr d (f.severity.getD "INFO"))
        d).map Prod.fst = d.map Prod.fst := by
  induction findings generalizing d with
  | nil => simp
  | cons f t ih =>
    have hk := dictIncr_keys_of_mem d _ (h f (by simp))
    rw [List.foldl_cons, ih _ (fun g hg => by
      rw [hk]
      exact h g (by simp [hg])), hk]

/-- The code's average (`sum / max(len, 1)`) agrees with the spec's
"mean of all per-finding scores, 0 if no findings". -/
theorem avgCvss_code_eq_spec (findings : List FindingDict) :
    (findings.map findingCvss).sum /
        ((max (findings.map findingCvss).length 1 : ℕ) : ℚ) =
      if findings = [] then 0
      else (findings.map findingCvss).sum /
        (((findings.map findingCvss).length : ℕ) : ℚ) := by
  rcases eq_or_ne findings [] with he | he
  · subst he
    simp
  · have h1 : 1 ≤ (findings.map findingCvss).length := by
      have : findings.length ≠ 0 := by simpa using he
      simp only [List.length_map]
      omega
    rw [if_neg he, Nat.max_eq_left h1]

/-! ## Claims -/

/-- C1: for every target the Target Guard classifies as blocked (its
literal IP, or some DNS-resolved address, lies in a configured blocked
CIDR range), `run_scan` returns — without invoking any module — a
report with `modules_completed = 0`, `modules_total = 0`, empty assets
and findings lists, exactly one error string, `risk_score = 0` and
`security_score = 100` in the summary. -/
theorem C1_blocked_target_short_circuit
    (resolve : String → Option (List SockAddr))
    (behavior : ℕ → ModuleOutcome) (target profile : String)
    (opts : ScanOptions)
    (h : is_blocked_target resolve target = true) :
    (runScan resolve behavior target profile opts).2 = [] ∧
    (runScan resolve behavior target profile opts).1.modules_completed = 0 ∧
    (runScan resolve behavior target profile opts).1.modules_total = 0 ∧
    (runScan resolve behavior target profile opts).1.assets = [] ∧
    (runScan resolve behavior target profile opts).1.findings = [] ∧
    (runScan resolve behavior target profile opts).1.errors.length = 1 ∧
    (runScan resolve behavior target profile opts).1.summary.risk_score = 0 ∧
    (runScan resolve behavior target profile opts).1.summary.security_score
      = 100 := by
  simp [runScan, h, blockedSummary]

/-- Witness for C1 at the blocked literal target
`http://192.168.0.5/x`. -/
theorem C1_blocked_target_short_circuit_witness :
    is_blocked_target noResolve "http://192.168.0.5/x" = true ∧
    ((runScan noResolve credBehavior "http://192.168.0.5/x" "STANDARD"
        {}).2 = [] ∧
      (runScan noResolve credBehavior "http://192.168.0.5/x" "STANDARD"
        {}).1.modules_completed = 0 ∧
      (runScan noResolve credBehavior "http://192.168.0.5/x" "STANDARD"
        {}).1.modules_total = 0 ∧
      (runScan noResolve credBehavior "http://192.168.0.5/x" "STANDARD"
        {}).1.assets = [] ∧
      (runScan noResolve credBehavior "http://192.168.0.5/x" "STANDARD"
        {}).1.findings = [] ∧
      (runScan noResolve credBehavior "http://192.168.0.5/x" "STANDARD"
        {}).1.errors.length = 1 ∧
      (runScan noResolve credBehavior "http://192.168.0.5/x" "STANDARD"
        {}).1.summary.risk_score = 0 ∧
      (runScan noResolve credBehavior "http://192.168.0.5/x" "STANDARD"
        {}).1.summary.security_score = 100) :=
  ⟨by decide,
   C1_blocked_target_short_circuit noResolve credBehavior
     "http://192.168.0.5/x" "STANDARD" {} (by decide)⟩

/-- C2: for every list of findings, the summary's `risk_score` equals
`round(min(100, avg_cvss * 10 * max(count_factor, 1.0)))` where
`avg_cvss` is the mean of the per-finding CVSS scores (0 if the list
is empty) and `count_factor = min(total_findings / 5, 3.0)`, and
`security_score = max(0, 100 - risk_score)`; in particular 6 findings
each with explicit `cvssScore` 5.0 yield risk 60 / security 40, and 0
findings yield risk 0 / security 100. -/
theorem C2_risk_score_formula (findings : List FindingDict) :
    ((generate_summary findings).risk_score =
      pyRound (min 100
        ((if findings = [] then 0
          else (findings.map findingCvss).sum /
            (((findings.map findingCvss).length : ℕ) : ℚ)) * 10 *
          max (min ((findings.length : ℚ) / 5) 3) 1)) ∧
    (generate_summary findings).security_score =
      max 0 (100 - (generate_summary findings).risk_score)) ∧
    (generate_summary
        (List.replicate 6 { cvssScore := some 5 })).risk_score = 60 ∧
    (generate_summary
        (List.replicate 6 { cvssScore := some 5 })).security_score = 40 ∧
    (generate_summary []).risk_score = 0 ∧
    (generate_summary []).security_score = 100 := by
  refine ⟨⟨?_, ?_⟩, ?_, ?_, ?_, ?_⟩
  · rw [pyRound_min_100, ← avgCvss_code_eq_spec findings]
    simp [generate_summary]
  · simp [generate_summary]
  · norm_num [generate_summary, pyRound, findingCvss, List.replicate]
  · norm_num [generate_summary, pyRound, findingCvss, List.replicate]
  · norm_num [generate_summary, pyRound]
  · norm_num [generate_summary, pyRound]

/-- C3: the per-finding CVSS score used by the summary is the explicit
numeric `cvssScore` when present; otherwise the static category-table
value (SQL_INJECTION and COMMAND_INJECTION map to 9.8, WAF_DETECTED to
0.0); otherwise, when the category is not in the table, the
severity-table value (CRITICAL 9.5, HIGH 7.5, MEDIUM 5.0, LOW 2.5,
INFO 0.0); a single finding of category SQL_INJECTION with no explicit
score gives risk 98 and security 2. -/
theorem C3_cvss_estimation :
    (∀ (f : FindingDict) (c : ℚ), f.cvssScore = some c →
      findingCvss f = c) ∧
    (∀ f : FindingDict, f.cvssScore = none → ∀ v : ℚ,
      CATEGORY_CVSS (f.category.getD "OTHER") = some v →
      findingCvss f = v) ∧
    CATEGORY_CVSS "SQL_INJECTION" = some 9.8 ∧
    CATEGORY_CVSS "COMMAND_INJECTION" = some 9.8 ∧
    CATEGORY_CVSS "WAF_DETECTED" = some 0 ∧
    (∀ f : FindingDict, f.cvssScore = none →
      CATEGORY_CVSS (f.category.getD "OTHER") = none →
      findingCvss f = SEVERITY_CVSS (f.severity.getD "INFO")) ∧
    SEVERITY_CVSS "CRITICAL" = 9.5 ∧ SEVERITY_CVSS "HIGH" = 7.5 ∧
    SEVERITY_CVSS "MEDIUM" = 5 ∧ SEVERITY_CVSS "LOW" = 2.5 ∧
    SEVERITY_CVSS "INFO" = 0 ∧
    (generate_summary
        [{ category := some "SQL_INJECTION" }]).risk_score = 98 ∧
    (generate_summary
        [{ category := some "SQL_INJECTION" }]).security_score = 2 := by
  refine ⟨?_, ?_, ?_, ?_, ?_, ?_, ?_, ?_, ?_, ?_, ?_, ?_, ?_⟩
  · intro f c h
    simp [findingCvss, h]
  · intro f h v hv
    simp [findingCvss, h, estimate_cvss, hv]
  · norm_num +decide [CATEGORY_CVSS]
  · norm_num +decide [CATEGORY_CVSS]
  · norm_num +decide [CATEGORY_CVSS]
  · intro f h1 h2
    simp [findingCvss, h1, estimate_cvss, h2]
  · norm_num +decide [SEVERITY_CVSS]
  · norm_num +decide [SEVERITY_CVSS]
  · norm_num +decide [SEVERITY_CVSS]
  · norm_num +decide [SEVERITY_CVSS]
  · norm_num +decide [SEVERITY_CVSS]
  · norm_num [generate_summary, pyRound, findingCvss, estimate_cvss,
      CATEGORY_CVSS]
  · norm_num [generate_summary, pyRound, findingCvss, estimate_cvss,
      CATEGORY_CVSS]

/-- Witness for C3's conditional parts: a finding with an explicit
score keeps it; SQL injection without one estimates 9.8; an unlisted
category falls back to the severity table. -/
theorem C3_cvss_estimation_witness :
    findingCvss { cvssScore := some 5 } = 5 ∧
    findingCvss { category := some "SQL_INJECTION" } = 9.8 ∧
    findingCvss { category := some "NOT_A_CATEGORY",
                  severity := some "HIGH" } = 7.5 := by
  obtain ⟨h1, h2, -, -, -, h6, -⟩ := C3_cvss_estimation
  refine ⟨h1 _ 5 rfl, h2 _ rfl 9.8 (by norm_num +decide [CATEGORY_CVSS]), ?_⟩
  have h := h6 { category := some "NOT_A_CATEGORY",
                 severity := some "HIGH" } rfl (by simp +decide [CATEGORY_CVSS])
  rw [h]
  norm_num +decide [SEVERITY_CVSS]

/-- C9 counterexample: a finding whose severity is the non-standard
value `"BOGUS"` is not counted as INFO; instead `severity_counts`
gains a sixth key `"BOGUS"`, so the tally has neither exactly the five
standard keys nor the claimed INFO count. -/
theorem C9_counterexample :
    (generate_summary [{ severity := some "BOGUS" }]).severity_counts =
      [("CRITICAL", 0), ("HIGH", 0), ("MEDIUM", 0), ("LOW", 0),
       ("INFO", 0), ("BOGUS", 1)] ∧
    (generate_summary [{ severity := some "BOGUS" }]).severity_counts.map
      Prod.fst ≠ standardSeverities := by
  constructor
  · simp +decide [generate_summary, dictIncr]
  · simp +decide [generate_summary, dictIncr, standardSeverities]

/-- C9 (amended): the severity tally counts each finding under its
literal severity value, with a finding whose severity key is missing
counted as INFO; for every key `n`, the count stored under `n` is
exactly the number of findings whose (INFO-defaulted) severity value
equals `n` — present with that count whenever `n` is one of the five
standard buckets or at least one finding carries it (so each distinct
non-standard value gains its own key), and absent otherwise.  The
values sum to `total_findings`, the five standard buckets are always
present, and when every finding's severity is one of the five standard
values the keys are exactly those five. -/
theorem C9_severity_tally (findings : List FindingDict) :
    (∀ n : String,
      dictGet (generate_summary findings).severity_counts n =
        (if n ∈ standardSeverities ∨
            0 < (findings.filter
              (fun f => f.severity.getD "INFO" = n)).length then
          some ((findings.filter
            (fun f => f.severity.getD "INFO" = n)).length)
        else none)) ∧
    ((generate_summary findings).severity_counts.map Prod.snd).sum =
      (generate_summary findings).total_findings ∧
    (∀ k ∈ standardSeverities,
      k ∈ (generate_summary findings).severity_counts.map Prod.fst) ∧
    ((∀ f ∈ findings, f.severity.getD "INFO" ∈ standardSeverities) →
      (generate_summary findings).severity_counts.map Prod.fst =
        standardSeverities) := by
  refine ⟨?_, ?_, ?_, ?_⟩
  · intro n
    simp only [generate_summary]
    rw [severityFold_get, dictGet_initCounts]
    by_cases h : n ∈ standardSeverities
    · simp [h]
    · simp only [h, if_false, false_or]
      by_cases hc : (findings.filter
          (fun f => f.severity.getD "INFO" = n)).length = 0
      · simp [hc]
      · simp [hc, Nat.pos_of_ne_zero hc]
  · simp only [generate_summary]
    rw [severityFold_sum]
    simp
  · intro k hk
    simp only [generate_summary]
    apply severityFold_keys_mono
    simpa [standardSeverities] using hk
  · intro h
    simp only [generate_summary]
    rw [severityFold_keys_eq]
    · simp [standardSeverities]
    · intro f hf
      have := h f hf
      simpa [standardSeverities] using this

/-- Witness for C9: on a one-finding list with severity LOW the tally
stores 1 under `"LOW"` (its literal value, not INFO) and nothing under
a value no finding carries; the sum, the INFO bucket's presence, and
the exactly-five-keys case are exercised at the same input. -/
theorem C9_severity_tally_witness :
    dictGet (generate_summary
        [{ severity := some "LOW" }]).severity_counts "LOW" = some 1 ∧
    dictGet (generate_summary
        [{ severity := some "LOW" }]).severity_counts "BOGUS" = none ∧
    ((generate_summary [{ severity := some "LOW" }]).severity_counts.map
        Prod.snd).sum =
      (generate_summary [{ severity := some "LOW" }]).total_findings ∧
    "INFO" ∈ (generate_summary
        [{ severity := some "LOW" }]).severity_counts.map Prod.fst ∧
    (generate_summary [{ severity := some "LOW" }]).severity_counts.map
        Prod.fst = standardSeverities :=
  ⟨((C9_severity_tally [{ severity := some "LOW" }]).1 "LOW").trans
     (by decide),
   ((C9_severity_tally [{ severity := some "LOW" }]).1 "BOGUS").trans
     (by decide),
   (C9_severity_tally [{ severity := some "LOW" }]).2.1,
   (C9_severity_tally [{ severity := some "LOW" }]).2.2.1 "INFO"
     (by decide),
   (C9_severity_tally [{ severity := some "LOW" }]).2.2.2
     (by intro f hf; fin_cases hf; decide)⟩

/-- C10: for every profile string that is not QUICK, STANDARD or DEEP
— including CUSTOM when the options carry no non-empty `modules` list,
and any unrecognized name — `run_scan` silently uses the STANDARD
profile's module list (which is non-empty and fully registered) rather
than failing or running nothing. -/
theorem C10_unknown_profile_defaults_standard (profile : String)
    (opts : ScanOptions) (hq : profile ≠ "QUICK")
    (hs : profile ≠ "STANDARD") (hd : profile ≠ "DEEP")
    (hc : profile = "CUSTOM" → opts.modules = []) :
    resolveModules profile opts = STANDARD_MODULES ∧
    STANDARD_MODULES ≠ [] ∧
    (∀ (resolve : String → Option (List SockAddr))
        (behavior : ℕ → ModuleOutcome) (target : String),
      is_blocked_target resolve target = false →
      opts.exclude_modules = [] →
      ((runScan resolve behavior target profile opts).2.map
        (fun c => c.2.1)) = STANDARD_MODULES) := by
  have hres : resolveModules profile opts = STANDARD_MODULES := by
    by_cases hcu : profile = "CUSTOM"
    · simp [resolveModules, lookupProfile, SCAN_PROFILES, hcu, hc hcu]
    · simp [resolveModules, lookupProfile, SCAN_PROFILES, hcu,
        Ne.symm hq, Ne.symm hs, Ne.symm hd]
  refine ⟨hres, by decide, ?_⟩
  intro resolve behavior target hnb hexc
  rw [runScan_call_names resolve behavior target profile opts hnb]
  rw [finalNames, hres, if_neg (by simp [hexc])]
  decide

/-- Witness for C10 at the unrecognized profile name `"ZZZ"`. -/
theorem C10_unknown_profile_defaults_standard_witness :
    resolveModules "ZZZ" {} = STANDARD_MODULES ∧
    ((runScan noResolve allTimeout "example.com" "ZZZ" {}).2.map
      (fun c => c.2.1)) = STANDARD_MODULES :=
  ⟨(C10_unknown_profile_defaults_standard "ZZZ" {} (by decide) (by decide)
      (by decide) (fun h => by simp at h)).1,
   (C10_unknown_profile_defaults_standard "ZZZ" {} (by decide) (by decide)
      (by decide) (fun h => by simp at h)).2.2 noResolve allTimeout
     "example.com" (by decide) rfl⟩

/-- C4 counterexample: in a CUSTOM scan running the port scanner and
then the credential-testing module (`default_creds_checker`, a member
of the claim's documented asset-consuming set), the port scanner emits
one asset, yet the credential-testing module's run call receives no
`discovered_assets` option at all — the engine's consumer tuple omits
credential testing. -/
theorem C4_counterexample :
    ((runScan noResolve credBehavior "example.com" "CUSTOM"
        credOpts).2.map (fun c => (c.2.1, c.2.2.discovered_assets))) =
      [("port_scanner", none), ("default_creds_checker", none)] ∧
    (runScan noResolve credBehavior "example.com" "CUSTOM"
        credOpts).1.assets = [portAsset] := by
  decide

/-- C4 (amended): for the asset-consuming modules of the code's tuple
(vuln_checker, subdomain_takeover, nvd_cve_matcher, admin_detector —
credential testing is not among them), the `discovered_assets` option
passed to the module's run call contains exactly the assets emitted by
modules at strictly earlier positions of the same scan, and none
emitted by that module or any later one. -/
theorem C4_discovered_assets_causal
    (resolve : String → Option (List SockAddr))
    (behavior : ℕ → ModuleOutcome) (target profile : String)
    (opts : ScanOptions) (pre : List Call) (c : Call) (post : List Call)
    (hsplit : (runScan resolve behavior target profile opts).2 =
      pre ++ c :: post)
    (hmem : c.2.1 ∈ assetConsumers) :
    c.2.2.discovered_assets =
      some (pre.flatMap (callAssets behavior)) := by
  cases hb : is_blocked_target resolve target with
  | false =>
    rw [runScan_trace resolve behavior target profile opts hb] at hsplit
    have h := traceFrom_causal opts behavior
      (finalNames profile opts).enum [] pre c post hsplit hmem
    simpa using h
  | true =>
    have hnil : (runScan resolve behavior target profile opts).2 = [] := by
      simp [runScan, hb]
    rw [hnil] at hsplit
    exact absurd hsplit (by simp)

/-- Witness for C4 (amended): the injection-testing module at position
1 receives exactly the port scanner's asset. -/
theorem C4_discovered_assets_causal_witness :
    (runScan noResolve vulnBehavior "example.com" "CUSTOM" vulnOpts).2 =
      [(0, "port_scanner", {}),
       (1, "vuln_checker", { discovered_assets := some [portAsset] })] ∧
    (((1, "vuln_checker",
        ({ discovered_assets := some [portAsset] } : ModuleOpts)) :
          Call)).2.2.discovered_assets =
      some (([((0, "port_scanner", ({} : ModuleOpts)) : Call)]).flatMap
        (callAssets vulnBehavior)) :=
  ⟨by decide,
   C4_discovered_assets_causal noResolve vulnBehavior "example.com"
     "CUSTOM" vulnOpts [(0, "port_scanner", {})]
     (1, "vuln_checker", { discovered_assets := some [portAsset] }) []
     (by decide) (by decide)⟩

/-- C5 counterexample: the DEEP profile's list contains
`"api_security"`, which is absent from the Module Registry; the scan
skips it (12 calls, no api_security call) but `modules_total` is still
13 — the unknown module does count toward `modules_total`. -/
theorem C5_counterexample :
    "api_security" ∈ finalNames "DEEP" ({} : ScanOptions) ∧
    "api_security" ∉ MODULE_REGISTRY ∧
    (finalNames "DEEP" ({} : ScanOptions)).length = 13 ∧
    (runScan noResolve allTimeout "example.com" "DEEP"
      {}).1.modules_total = 13 ∧
    ((runScan noResolve allTimeout "example.com" "DEEP" {}).2.map
      (fun c => c.2.1)).length = 12 ∧
    "api_security" ∉ ((runScan noResolve allTimeout "example.com" "DEEP"
      {}).2.map (fun c => c.2.1)) := by
  decide

/-- C5 (amended): a module name absent from the registry is never
invoked, contributes no entry to the report's errors, and does not
count toward `modules_completed`; it does, however, count toward
`modules_total`, which is the length of the resolved list including
unknown names. -/
theorem C5_unknown_module_skipped
    (resolve : String → Option (List SockAddr))
    (behavior : ℕ → ModuleOutcome) (target profile : String)
    (opts : ScanOptions)
    (hnb : is_blocked_target resolve target = false) (n : String)
    (_hn : n ∈ finalNames profile opts) (hreg : n ∉ MODULE_REGISTRY) :
    n ∉ ((runScan resolve behavior target profile opts).2.map
      (fun c => c.2.1)) ∧
    (runScan resolve behavior target profile opts).1.modules_total =
      (finalNames profile opts).length ∧
    (runScan resolve behavior target profile opts).1.errors =
      (runScan resolve behavior target profile opts).2.flatMap
        (callErrors behavior) ∧
    (runScan resolve behavior target profile opts).1.modules_completed =
      ((runScan resolve behavior target profile opts).2.filter
        (fun c => (behavior c.1).isOk)).length := by
  refine ⟨?_, runScan_total resolve behavior target profile opts hnb,
    runScan_errors resolve behavior target profile opts hnb,
    runScan_completed resolve behavior target profile opts hnb⟩
  rw [runScan_call_names resolve behavior target profile opts hnb]
  intro hmemf
  exact hreg (by simpa using (List.mem_filter.mp hmemf).2)

/-- Witness for C5 (amended) on the DEEP profile's `api_security`. -/
theorem C5_unknown_module_skipped_witness :
    "api_security" ∉ ((runScan noResolve allTimeout "example.com" "DEEP"
      ({} : ScanOptions)).2.map (fun c => c.2.1)) ∧
    (runScan noResolve allTimeout "example.com" "DEEP"
      ({} : ScanOptions)).1.modules_total =
      (finalNames "DEEP" ({} : ScanOptions)).length :=
  ⟨(C5_unknown_module_skipped noResolve allTimeout "example.com" "DEEP"
      {} (by decide) "api_security" (by decide) (by decide)).1,
   (C5_unknown_module_skipped noResolve allTimeout "example.com" "DEEP"
      {} (by decide) "api_security" (by decide) (by decide)).2.1⟩

/-- C6: a module whose run call raises an exception yields the error
string `"Module <name> failed: <message>"` in the report's global
errors list; all registered modules of the sequence are still invoked,
`run_scan` still returns a report (the model is a total function, so
nothing propagates), and `modules_completed` counts exactly the
invocations that returned normally. -/
theorem C6_module_failure_isolated
    (resolve : String → Option (List SockAddr))
    (behavior : ℕ → ModuleOutcome) (target profile : String)
    (opts : ScanOptions)
    (hnb : is_blocked_target resolve target = false) :
    ((runScan resolve behavior target profile opts).2.map
        (fun c => c.2.1)) =
      (finalNames profile opts).filter (fun m => m ∈ MODULE_REGISTRY) ∧
    (runScan resolve behavior target profile opts).1.modules_completed =
      ((runScan resolve behavior target profile opts).2.filter
        (fun c => (behavior c.1).isOk)).length ∧
    (∀ c ∈ (runScan resolve behavior target profile opts).2,
      ∀ msg, behavior c.1 = .exn msg →
      ("Module " ++ c.2.1 ++ " failed: " ++ msg) ∈
        (runScan resolve behavior target profile opts).1.errors) := by
  refine ⟨runScan_call_names resolve behavior target profile opts hnb,
    runScan_completed resolve behavior target profile opts hnb, ?_⟩
  intro c hc msg hbeh
  rw [runScan_errors resolve behavior target profile opts hnb]
  exact List.mem_flatMap.mpr ⟨c, hc, by simp [callErrors, hbeh]⟩

/-- Witness for C6: the second module of a two-module scan raises
`"boom"`; its error string lands in the report's errors. -/
theorem C6_module_failure_isolated_witness :
    is_blocked_target noResolve "example.com" = false ∧
    "Module port_scanner failed: boom" ∈
      (runScan noResolve failBehavior "example.com" "CUSTOM"
        dnsPortOpts).1.errors :=
  ⟨by decide,
   (C6_module_failure_isolated noResolve failBehavior "example.com"
      "CUSTOM" dnsPortOpts (by decide)).2.2 (1, "port_scanner", {})
     (by decide) "boom" (by decide)⟩

/-- C7: a timed-out module invocation contributes exactly the single
error string `"Module <name> timed out"` to the report's errors (which
are precisely the concatenation of every invocation's contribution),
and the remaining registered modules of the sequence are still
invoked. -/
theorem C7_timeout_isolated
    (resolve : String → Option (List SockAddr))
    (behavior : ℕ → ModuleOutcome) (target profile : String)
    (opts : ScanOptions)
    (hnb : is_blocked_target resolve target = false) :
    (runScan resolve behavior target profile opts).1.errors =
      (runScan resolve behavior target profile opts).2.flatMap
        (callErrors behavior) ∧
    (∀ c ∈ (runScan resolve behavior target profile opts).2,
      behavior c.1 = .timeout →
      callErrors behavior c = ["Module " ++ c.2.1 ++ " timed out"]) ∧
    ((runScan resolve behavior target profile opts).2.map
        (fun c => c.2.1)) =
      (finalNames profile opts).filter (fun m => m ∈ MODULE_REGISTRY) := by
  refine ⟨runScan_errors resolve behavior target profile opts hnb, ?_,
    runScan_call_names resolve behavior target profile opts hnb⟩
  intro c _hc hbeh
  simp [callErrors, hbeh]

/-- Witness for C7: the first module times out, the second still
runs. -/
theorem C7_timeout_isolated_witness :
    (runScan noResolve timeoutBehavior "example.com" "CUSTOM"
        dnsPortOpts).1.errors =
      (runScan noResolve timeoutBehavior "example.com" "CUSTOM"
        dnsPortOpts).2.flatMap (callErrors timeoutBehavior) ∧
    callErrors timeoutBehavior (0, "dns_enumerator", {}) =
      ["Module dns_enumerator timed out"] :=
  ⟨(C7_timeout_isolated noResolve timeoutBehavior "example.com" "CUSTOM"
      dnsPortOpts (by decide)).1,
   (C7_timeout_isolated noResolve timeoutBehavior "example.com" "CUSTOM"
      dnsPortOpts (by decide)).2.1 (0, "dns_enumerator", {}) (by decide)
     (by decide)⟩

/-- C8 counterexample: when the first module returns normally and the
second raises, the failed module's error appears in the global errors
list but `module_results` has no entry at all for it — the error is
not visible in the per-module breakdown, contrary to the claim. -/
theorem C8_counterexample :
    (runScan noResolve failBehavior "example.com" "CUSTOM"
        dnsPortOpts).1.errors = ["Module port_scanner failed: boom"] ∧
    (runScan noResolve failBehavior "example.com" "CUSTOM"
        dnsPortOpts).1.module_results.map Prod.fst = ["dns_enumerator"] ∧
    (runScan noResolve failBehavior "example.com" "CUSTOM"
        dnsPortOpts).1.assets =
      [{ type := "SUBDOMAIN", value := "a.example.com" }] := by
  decide

/-- C8 (amended): the report carries the full assets and findings of
every module that returned normally; each failing or timed-out
module's error is visible in the report's global errors list; and the
per-module breakdown `module_results` has entries exactly for the
modules that returned normally (failing/timed-out modules have no
entry there). -/
theorem C8_partial_failure_results
    (resolve : String → Option (List SockAddr))
    (behavior : ℕ → ModuleOutcome) (target profile : String)
    (opts : ScanOptions)
    (hnb : is_blocked_target resolve target = false) :
    (runScan resolve behavior target profile opts).1.assets =
      (runScan resolve behavior target profile opts).2.flatMap
        (callAssets behavior) ∧
    (runScan resolve behavior target profile opts).1.findings =
      (runScan resolve behavior target profile opts).2.flatMap
        (callFindings behavior) ∧
    (∀ c ∈ (runScan resolve behavior target profile opts).2,
      ∀ msg, behavior c.1 = .exn msg →
      ("Module " ++ c.2.1 ++ " failed: " ++ msg) ∈
        (runScan resolve behavior target profile opts).1.errors) ∧
    (∀ c ∈ (runScan resolve behavior target profile opts).2,
      behavior c.1 = .timeout →
      ("Module " ++ c.2.1 ++ " timed out") ∈
        (runScan resolve behavior target profile opts).1.errors) ∧
    (∀ n : String,
      (∃ s, (n, s) ∈
        (runScan resolve behavior target profile opts).1.module_results) ↔
      ∃ c ∈ (runScan resolve behavior target profile opts).2,
        c.2.1 = n ∧ (behavior c.1).isOk = true) := by
  refine ⟨runScan_assets resolve behavior target profile opts hnb,
    runScan_findings resolve behavior target profile opts hnb, ?_, ?_,
    runScan_results resolve behavior target profile opts hnb⟩
  · intro c hc msg hbeh
    rw [runScan_errors resolve behavior target profile opts hnb]
    exact List.mem_flatMap.mpr ⟨c, hc, by simp [callErrors, hbeh]⟩
  · intro c hc hbeh
    rw [runScan_errors resolve behavior target profile opts hnb]
    exact List.mem_flatMap.mpr ⟨c, hc, by simp [callErrors, hbeh]⟩

/-- Witness for C8 (amended): the succeeding module's results are
fully retained, the failing module's error reaches the global list,
and only the succeeding module has a `module_results` entry. -/
theorem C8_partial_failure_results_witness :
    (runScan noResolve failBehavior "example.com" "CUSTOM"
        dnsPortOpts).1.assets =
      (runScan noResolve failBehavior "example.com" "CUSTOM"
        dnsPortOpts).2.flatMap (callAssets failBehavior) ∧
    "Module port_scanner failed: boom" ∈
      (runScan noResolve failBehavior "example.com" "CUSTOM"
        dnsPortOpts).1.errors :=
  ⟨(C8_partial_failure_results noResolve failBehavior "example.com"
      "CUSTOM" dnsPortOpts (by decide)).1,
   (C8_partial_failure_results noResolve failBehavior "example.com"
      "CUSTOM" dnsPortOpts (by decide)).2.2.1 (1, "port_scanner", {})
     (by decide) "boom" (by decide)⟩

end VulnScan
